import Mathlib

/-!
Shallow embedding of the status/telemetry and header-assembly core of the
g2charis repository (source file `src/cams/CHARIS.py`, a CHARIS "personality"
for the g2cam instrument interface), together with theorems settling the
frozen claims about it.

Conventions of the embedding:
* Python floats are modelled exactly as rationals (`ℚ`); all arithmetic
  appearing in the claims is exactly representable, so no rounding model is
  needed.
* Fallible Python code is modelled in `Except PyErr`; the constructors of
  `PyErr` mirror the exception classes the source can raise.
* External libraries that the source merely calls (datetime/astropy
  formatting, pyfits serialization, the OCS collaborator) are passed in as
  explicit function parameters; everything written in `CHARIS.py` itself is
  translated directly.
-/

set_option linter.unusedVariables false

deriving instance DecidableEq for Except

namespace CHARIS

/-- Python runtime values as they occur in this program: strings, floats
(modelled exactly as rationals), Python 2 ints/longs, booleans, and None. -/
inductive PyVal where
  | str (s : String)
  | num (q : ℚ)
  | int (n : ℤ)
  | bool (b : Bool)
  | pyNone
deriving DecidableEq

/-- Python exceptions the embedded code can raise. `camCommandError` models
g2cam's `CamCommandError`; `charisError` models the personality's
`CHARISError` subclass of it. The remaining constructors model the
interpreter's built-in exceptions. -/
inductive PyErr where
  | missingKey (k : String)
  | valueError
  | indexError
  | typeError
  | attributeError
  | nameError
  | camCommandError (msg : String)
  | charisError (msg : String)
deriving DecidableEq

/-- True exactly for the typed g2cam command errors (`CamCommandError` and its
subclass `CHARISError`). -/
def isCamCommandError : PyErr → Bool
  | .camCommandError _ => true
  | .charisError _ => true
  | _ => false

/-- True exactly for a `KeyError` on a status dictionary (the spec's
`MissingStatusKeyError`). -/
def isMissingKey : PyErr → Bool
  | .missingKey _ => true
  | _ => false

/-! ## Python string helpers

Exact models of the string operations the source uses: `re.split` on a
character-class run, `str.split` with and without a separator, `str.strip`,
and the `float()` / `long()` literal parsers. -/

/-- Python whitespace characters (the `\s` class). -/
def pyWS (c : Char) : Bool :=
  c == ' ' || c == '\t' || c == '\n' || c == '\r' || c == '\x0b' || c == '\x0c'

/-- The character class `[\s!\n\t]` used by `read_header_list`'s `re.split`. -/
def wsBang (c : Char) : Bool := pyWS c || c == '!'

/-- Split a character list at every maximal run of separator characters,
keeping the (possibly empty) pieces between runs — the behavior of Python's
`re.split('[c]+', s)`. -/
def splitRunsList (sep : Char → Bool) : List Char → List (List Char)
  | [] => [[]]
  | c :: cs =>
    let r := splitRunsList sep cs
    if sep c then
      match cs with
      | [] => [] :: r
      | c2 :: _ => if sep c2 then r else [] :: r
    else
      match r with
      | [] => [[c]]
      | t :: ts => (c :: t) :: ts

/-- `re.split` on a run of separator characters, as used on each header
definition line. -/
def pySplitRuns (sep : Char → Bool) (s : String) : List String :=
  (splitRunsList sep s.toList).map (fun l => String.mk l)

/-- Split at every single occurrence of one separator character — the behavior
of Python's `str.split(sep)` (runs are NOT collapsed). -/
def splitSepList (sep : Char) : List Char → List (List Char)
  | [] => [[]]
  | c :: cs =>
    let r := splitSepList sep cs
    if c = sep then [] :: r
    else
      match r with
      | [] => [[c]]
      | t :: ts => (c :: t) :: ts

/-- Python `s.split(sep)` for a one-character separator. -/
def pySplitSep (s : String) (sep : Char) : List String :=
  (splitSepList sep s.toList).map (fun l => String.mk l)

/-- Python `s.split()` with no argument: split on whitespace runs, dropping
empty pieces. -/
def pyStrSplit (s : String) : List String :=
  (pySplitRuns pyWS s).filter (fun t => t != "")

/-- Strip leading and trailing Python whitespace from a character list. -/
def pyStripList (l : List Char) : List Char :=
  ((l.dropWhile pyWS).reverse.dropWhile pyWS).reverse

/-- Python `s.strip()`. -/
def pyStrip (s : String) : String := String.mk (pyStripList s.toList)

/-- Decimal value of a list of digit characters. -/
def digitsVal (l : List Char) : ℕ :=
  l.foldl (fun a c => a * 10 + (c.toNat - 48)) 0

/-- Python `float()` on a string: optional sign, decimal mantissa, optional
exponent, with surrounding whitespace stripped. (The special spellings
`inf`/`nan` are not modelled; no value in this development uses them.)
Returns `none` where Python raises `ValueError`. -/
def pyFloatStr (s : String) : Option ℚ :=
  let l0 := pyStripList s.toList
  let sgnl : ℚ × List Char :=
    match l0 with
    | '+' :: r => (1, r)
    | '-' :: r => (-1, r)
    | r => (1, r)
  let l := sgnl.2
  let ip := l.takeWhile Char.isDigit
  let l1 := l.dropWhile Char.isDigit
  let fpl : List Char × List Char :=
    match l1 with
    | '.' :: r => (r.takeWhile Char.isDigit, r.dropWhile Char.isDigit)
    | r => ([], r)
  let fp := fpl.1
  let l2 := fpl.2
  if ip.isEmpty && fp.isEmpty then none
  else
    let mant : ℚ := (digitsVal ip : ℚ) + (digitsVal fp : ℚ) / ((10 : ℚ) ^ fp.length)
    match l2 with
    | [] => some (sgnl.1 * mant)
    | e :: r =>
      if e == 'e' || e == 'E' then
        let esl : ℤ × List Char :=
          match r with
          | '+' :: rr => (1, rr)
          | '-' :: rr => (-1, rr)
          | rr => (1, rr)
        let ed := esl.2.takeWhile Char.isDigit
        let r2 := esl.2.dropWhile Char.isDigit
        if ed.isEmpty || !r2.isEmpty then none
        else some (sgnl.1 * mant * (10 : ℚ) ^ (esl.1 * (digitsVal ed : ℤ)))
      else none

/-- Python 2 `long()` on a string: optional sign and decimal digits, with
surrounding whitespace stripped. Returns `none` where Python raises
`ValueError`. -/
def pyLongStr (s : String) : Option ℤ :=
  let l0 := pyStripList s.toList
  let sgnl : ℤ × List Char :=
    match l0 with
    | '+' :: r => (1, r)
    | '-' :: r => (-1, r)
    | r => (1, r)
  let l := sgnl.2
  if l.isEmpty || !(l.all Char.isDigit) then none
  else some (sgnl.1 * (digitsVal l : ℤ))

/-- Python `line.startswith('#')`. -/
def startsHash (s : String) : Bool :=
  match s.toList with
  | '#' :: _ => true
  | _ => false

/-! ## Header definition table (`read_header_list`, `init_stat_dict`) -/

/-- One header definition entry, with the field names used by the tuples in
`read_header_list`: status alias, FITS key, declared type, typed default,
and comment. -/
structure Entry where
  StatAlias : String
  FitsKey : String
  FitsType : String
  FitsDefault : PyVal
  FitsComment : String
deriving DecidableEq

/-- Coerce the raw default token `param[3]` per the declared type, as in
`read_header_list`. An unrecognized type leaves `FitsDefault` unassigned in
the source; through Python 2's leaked loop variable it then silently reuses
the previous line's value (`prev`), or raises `NameError` on the first line. -/
def coerceDefault (prev : Option PyVal) (fitsType : String) (d3 : Option String) :
    Except PyErr PyVal :=
  if fitsType = "string" then
    match d3 with
    | none => .error .indexError
    | some s => .ok (.str s)
  else if fitsType = "float" then
    match d3 with
    | none => .error .indexError
    | some s =>
      match pyFloatStr s with
      | none => .error .valueError
      | some q => .ok (.num q)
  else if fitsType = "int" then
    match d3 with
    | none => .error .indexError
    | some s =>
      match pyLongStr s with
      | none => .error .valueError
      | some n => .ok (.int n)
  else
    match prev with
    | none => .error .nameError
    | some v => .ok v

/-- Read one entry out of the split fields of a definition line: the first
four indexed accesses of `read_header_list` (any miss raises `IndexError`),
the typed coercion of the default, and the comment rejoined from the
remaining fields with single spaces. -/
def parseFields (prev : Option PyVal) (param : List String) :
    Except PyErr (Entry × Option PyVal) :=
  match param.get? 0, param.get? 1, param.get? 2 with
  | some a, some k, some t =>
    match coerceDefault prev t (param.get? 3) with
    | .error e => .error e
    | .ok v =>
      .ok ({ StatAlias := a, FitsKey := k, FitsType := t, FitsDefault := v,
             FitsComment := String.intercalate " " (param.drop 4) }, some v)
  | _, _, _ => .error .indexError

/-- Parse one non-comment line of a header definition file: split
`line[:-1]` on runs of `[\s!\n\t]` and read the fields. Returns the entry
together with the (leaked) default value carried to the next line. -/
def parseLine (prev : Option PyVal) (line : String) : Except PyErr (Entry × Option PyVal) :=
  parseFields prev (pySplitRuns wsBang (String.mk line.toList.dropLast))

/-- Process the lines of a header definition file in order, skipping
`#`-comment lines, threading the leaked previous default. -/
def readLines : Option PyVal → List String → Except PyErr (List Entry)
  | _, [] => .ok []
  | prev, line :: rest =>
    if startsHash line then readLines prev rest
    else
      match parseLine prev line with
      | .error e => .error e
      | .ok (ent, prev2) =>
        match readLines prev2 rest with
        | .error e => .error e
        | .ok es => .ok (ent :: es)

/-- `CHARIS.read_header_list`: `none` models a file that cannot be opened
(the `IOError` branch, re-raised as `CHARISError`); otherwise the file's
lines (each including its trailing newline) are parsed in order. -/
def read_header_list (file : Option (List String)) : Except PyErr (List Entry) :=
  match file with
  | none => .error (.charisError "cannot open")
  | some lines => readLines none lines

/-- A status dictionary: alias names to current values. -/
abbrev StatusDict := String → Option PyVal

/-- `CHARIS.init_stat_dict`: one entry per non-`NA` alias, value the entry's
default; on duplicate aliases the last entry wins, as for a Python dict. -/
def init_stat_dict (header : List Entry) : StatusDict := fun k =>
  (((header.filter (fun e => e.StatAlias != "NA")).reverse.find?
      (fun e => e.StatAlias == k)).map (fun e => e.FitsDefault))

/-! ## pyfits Header model

A `pyfits.Header` is an ordered card list. `Header.set` updates the first
card carrying the keyword in place (value and comment) or appends a new card;
assigning to `hdr['COMMENT']` appends a commentary card. -/

/-- An assembled header: ordered `(keyword, value, comment)` cards. -/
abbrev Header := List (String × PyVal × String)

/-- `pyfits.Header.set`: replace the first card with this keyword (value and
comment), or append a new card if the keyword is absent. -/
def hset : Header → String → PyVal → String → Header
  | [], k, v, c => [(k, v, c)]
  | card :: rest, k, v, c =>
    if card.1 = k then (k, v, c) :: rest else card :: hset rest k v c

/-- `hdr['COMMENT'] = s`: append a commentary card. -/
def addComment (h : Header) (s : String) : Header :=
  h ++ [("COMMENT", PyVal.str s, "")]

/-- Look up the first card with the given keyword, returning its value and
comment. -/
def hlookup : Header → String → Option (PyVal × String)
  | [], _ => none
  | card :: rest, k =>
    if card.1 = k then some (card.2.1, card.2.2) else hlookup rest k

/-- The value of the first card with the given keyword. -/
def hvalue (h : Header) (k : String) : Option PyVal :=
  (hlookup h k).map (fun p => p.1)

/-! ## fetch_header and its helpers -/

/-- Status-dictionary lookup `d[k]`, raising `KeyError` when absent (the
spec's `MissingStatusKeyError`). -/
def getKey (d : StatusDict) (k : String) : Except PyErr PyVal :=
  match d k with
  | some v => .ok v
  | none => .error (.missingKey k)

/-- Python `float(x)` on a runtime value. `float(None)` raises `TypeError`. -/
def pyFloatV : PyVal → Except PyErr ℚ
  | .str s =>
    match pyFloatStr s with
    | some q => .ok q
    | none => .error .valueError
  | .num q => .ok q
  | .int n => .ok (n : ℚ)
  | .bool b => .ok (if b then 1 else 0)
  | .pyNone => .error .typeError

/-- Python `float(s)` on a string, raising `ValueError` on parse failure. -/
def pyFloatE (s : String) : Except PyErr ℚ :=
  match pyFloatStr s with
  | some q => .ok q
  | none => .error .valueError

/-- Calling a string method such as `.split` on a non-string raises
`AttributeError`. -/
def asStr : PyVal → Except PyErr String
  | .str s => .ok s
  | _ => .error .attributeError

/-- List indexing `l[i]`, raising `IndexError` when out of range. -/
def pyIdx (l : List String) (i : ℕ) : Except PyErr String :=
  match l.get? i with
  | some x => .ok x
  | none => .error .indexError

/-- The right-ascension conversion of `fetch_header`:
`ra_deg = 15.0*(float(p[0]) + float(p[1])/60.0 + float(p[2])/3600.0)` where
`p = ra.split(':')`. -/
def ra_deg_of (ra : String) : Except PyErr ℚ := do
  let p := pySplitSep ra ':'
  let s0 ← pyIdx p 0
  let f0 ← pyFloatE s0
  let s1 ← pyIdx p 1
  let f1 ← pyFloatE s1
  let s2 ← pyIdx p 2
  let f2 ← pyFloatE s2
  pure (15 * (f0 + f1 / 60 + f2 / 3600))

/-- The declination conversion of `fetch_header`: when the degree token
contains no minus sign the minutes/seconds are added, otherwise subtracted
(`dec_param[0].find('-') == -1`). -/
def dec_deg_of (dec : String) : Except PyErr ℚ := do
  let p := pySplitSep dec ':'
  let d0 ← pyIdx p 0
  if (d0.toList.contains '-') = false then do
    let f0 ← pyFloatE d0
    let s1 ← pyIdx p 1
    let f1 ← pyFloatE s1
    let s2 ← pyIdx p 2
    let f2 ← pyFloatE s2
    pure (f0 + f1 / 60 + f2 / 3600)
  else do
    let f0 ← pyFloatE d0
    let s1 ← pyIdx p 1
    let f1 ← pyFloatE s1
    let s2 ← pyIdx p 2
    let f2 ← pyFloatE s2
    pure (f0 - f1 / 60 - f2 / 3600)

/-- External time/ephemeris functions the source calls but does not define:
`datetime.strftime` date and time formatting and astropy's `Time(...).mjd`.
Instants are modelled as exact epoch seconds (`ℚ`); `timedelta` arithmetic is
exact addition/subtraction of seconds. -/
structure TimeOps where
  fmtDate : ℚ → String
  fmtTime : ℚ → String
  mjd : ℚ → ℚ

/-- The fixed leading block of `fetch_header`: date/time strings for UTC and
HST (HST = UTC − 10 h), the three MJD cards, the frame id and the exposure
time. This is everything emitted before the `fullHeader is False` test. -/
def fixedHeader (T : TimeOps) (frameid : PyVal) (itime : ℚ) (utc_start : ℚ) : Header :=
  let utc_end := utc_start + itime
  let hst_start := utc_start - 36000
  let hst_end := hst_start + itime
  let h := hset [] "DATE-OBS" (.str (T.fmtDate utc_start)) "Observation start date (yyyy-mm-dd)"
  let h := hset h "UT" (.str (T.fmtTime utc_start)) "HH:MM:SS.SS typical UTC at exposure"
  let h := hset h "UT-STR" (.str (T.fmtTime utc_start)) "HH:MM:SS.SS UTC at exposure start"
  let h := hset h "UT-END" (.str (T.fmtTime utc_end)) "HH:MM:SS.SS UTC at exposure end"
  let h := hset h "HST" (.str (T.fmtTime hst_start)) "HH:MM:SS.SS typical HST at exposure"
  let h := hset h "HST-STR" (.str (T.fmtTime hst_start)) "HH:MM:SS.SS HST at exposure start"
  let h := hset h "HST-END" (.str (T.fmtTime hst_end)) "HH:MM:SS.SS HST at exposure end"
  let h := hset h "MJD" (.num (T.mjd utc_start)) "Modified Julian Day at typical time"
  let h := hset h "MJD-STR" (.num (T.mjd utc_start)) "Modified Julian Day at exposure start"
  let h := hset h "MJD-END" (.num (T.mjd utc_end)) "Modified Julian Day at exposure end"
  let h := hset h "FRAMEID" frameid "Image sequential number"
  hset h "EXPTIME" (.num itime) "Total integration time of the frame (sec)"

/-- One table-emission loop of `fetch_header`: for each entry in file order,
emit the default when the alias is `NA`, otherwise look the alias up in the
paired status dictionary (KeyError when absent). -/
def emitTable : List Entry → StatusDict → Header → Except PyErr Header
  | [], _, h => .ok h
  | e :: rest, d, h =>
    if e.StatAlias = "NA" then
      emitTable rest d (hset h e.FitsKey e.FitsDefault e.FitsComment)
    else
      match d e.StatAlias with
      | none => .error (.missingKey e.StatAlias)
      | some v => emitTable rest d (hset h e.FitsKey v e.FitsComment)

/-- The dashed separator comment line of the AO188 block. -/
def commentBar : String :=
  "------------------------------------------------------------------------"

/-- The AO188 title comment line. -/
def commentAO : String :=
  "---------------- Parameters for AO188/LGS -- ---------------------------"

/-- The WCS-parameter computations of `fetch_header`, in source order: look
up and float-convert the image rotator angle `AON.IMR.PAD`, look up
`FITS.SBR.RA` and `FITS.SBR.DEC`, then parse RA and DEC from their
colon-delimited strings. The numeric results feed only the disabled
(`if False:`) WCS block, so only their error effects are observable; the
total `math.sin`/`math.cos` calls are omitted. -/
def pointingChecks (dT dA : StatusDict) : Except PyErr Unit := do
  let padv ← getKey dA "AON.IMR.PAD"
  let _imrpad ← pyFloatV padv
  let raV ← getKey dT "FITS.SBR.RA"
  let decV ← getKey dT "FITS.SBR.DEC"
  let raS ← asStr raV
  let _ra_deg ← ra_deg_of raS
  let decS ← asStr decV
  let _dec_deg ← dec_deg_of decS
  pure ()

/-- The full-header tail of `fetch_header`: OBJECT, the telescope table, the
pointing/rotator conversions, the AO188 comment block, and the AO188 table. -/
def fullPart (tel ao : List Entry) (dT dA : StatusDict) (target : String)
    (hdr : Header) : Except PyErr Header :=
  match emitTable tel dT (hset hdr "OBJECT" (.str target) "Target description") with
  | .error e => .error e
  | .ok h2 =>
    match pointingChecks dT dA with
    | .error e => .error e
    | .ok _ =>
      emitTable ao dA (addComment (addComment (addComment h2 commentBar) commentAO) commentBar)

/-- `CHARIS.fetch_header`. `path` and `mode` are accepted and unused, as in
the source. `itime` arrives as a float at every call site, so the inner
`float(itime)` re-applications are identity and it is typed `ℚ` here. The
short form is returned unless `fullHeader is False` fails, i.e. unless the
argument is the boolean `False` itself. -/
def fetch_header (T : TimeOps) (tel ao : List Entry) (dT dA : StatusDict)
    (path : String) (frameid : PyVal) (mode : PyVal) (itime : ℚ) (target : String)
    (utc_start : ℚ) (fullHeader : PyVal) : Except PyErr Header :=
  let hdr := fixedHeader T frameid itime utc_start
  if fullHeader = PyVal.bool false then .ok hdr
  else fullPart tel ao dT dA target hdr

/-- `CHARIS.return_new_header`: refresh the two status dictionaries from the
OCS (the external collaborator; `dT`/`dA` here are the refreshed snapshots)
and build one header for frame `frameid` with `float(itime)` seconds at the
current instant `utcnow`, path `'here'` and target `'planetX'`. -/
def return_new_header (T : TimeOps) (tel ao : List Entry) (dT dA : StatusDict)
    (utcnow : ℚ) (frameid mode itime : PyVal) (fullHeader : PyVal) :
    Except PyErr Header :=
  match pyFloatV itime with
  | .error e => .error e
  | .ok it => fetch_header T tel ao dT dA "here" frameid mode it "planetX" utcnow fullHeader

/-- Result of `CHARIS.localCmd`: a header for `hdr`, a frame list for `seqno`
(delegated to the external collaborator and not inspected further here), or
Python's implicit `None` for any other command word. -/
inductive LocalRes where
  | hdrRes (h : Header)
  | framesRes
  | noneRes
deriving DecidableEq

/-- `CHARIS.localCmd`: split the request on whitespace; `hdr` dispatches to
`return_new_header` with the remaining tokens as string arguments (three
tokens leave `fullHeader` at its default `True`; a wrong arity raises
`TypeError`), `seqno` to the frame request, anything else falls through to
`None`. -/
def localCmd (T : TimeOps) (tel ao : List Entry) (dT dA : StatusDict)
    (utcnow : ℚ) (cmdStr : String) : Except PyErr LocalRes :=
  match pyStrSplit cmdStr with
  | [] => .error .indexError
  | cmd :: cmdargs =>
    if cmd = "hdr" then
      match cmdargs with
      | [f, m, i] =>
        (return_new_header T tel ao dT dA utcnow (.str f) (.str m) (.str i)
          (.bool true)).map LocalRes.hdrRes
      | [f, m, i, fh] =>
        (return_new_header T tel ao dT dA utcnow (.str f) (.str m) (.str i)
          (.str fh)).map LocalRes.hdrRes
      | _ => .error .typeError
    else if cmd = "seqno" then
      if cmdargs.length ≤ 2 then .ok .framesRes else .error .typeError
    else .ok .noneRes

/-! ## Command dispatch (`dispatchCommand`) -/

/-- A bound operation on the façade: positional arguments and keyword
parameters to a result (or a raised exception). -/
abbrev Operation := List PyVal → List (String × PyVal) → Except PyErr PyVal

/-- Python dict assignment `d[k] = v` on a keyword-parameter mapping. -/
def dictUpdate : List (String × PyVal) → String → PyVal → List (String × PyVal)
  | [], k, v => [(k, v)]
  | p :: rest, k, v =>
    if p.1 = k then (k, v) :: dictUpdate rest k v else p :: dictUpdate rest k v

/-- Python dict lookup on a keyword-parameter mapping. -/
def lookupParam : List (String × PyVal) → String → Option PyVal
  | [], _ => none
  | p :: rest, k => if p.1 = k then some p.2 else lookupParam rest k

/-- `CHARIS.dispatchCommand`: copy the keyword arguments, set `tag`, resolve
the command name against the façade's bound operations (`getattr`), raising
`CamCommandError` on a miss, and otherwise invoke the operation with the
positional arguments and the merged parameters. -/
def dispatchCommand (methods : String → Option Operation) (tag : PyVal)
    (cmdName : String) (args : List PyVal) (kwdargs : List (String × PyVal)) :
    Except PyErr PyVal :=
  let params := dictUpdate kwdargs "tag" tag
  match methods cmdName with
  | none => .error (.camCommandError ("ERROR: No such method in subsystem: " ++ cmdName))
  | some m => m args params

/-! ## The ramp command -/

/-- Observable side effects of an instrument command: a `setvals` write of
status fields under a tag, or an external `oneCmd.py` process execution. -/
inductive Effect where
  | setvalsE (tag : String) (fields : List (String × PyVal))
  | execCmdE (cmdStr : String)
deriving DecidableEq

/-- Round half to even (Python's float formatting tie rule, exact on this
rational model). -/
def roundHalfEven (q : ℚ) : ℤ :=
  let f := ⌊q⌋
  let r := q - (f : ℚ)
  if r < 1/2 then f
  else if 1/2 < r then f + 1
  else if f % 2 = 0 then f else f + 1

/-- Python `'%0.1f' % x`: one decimal digit, ties to even. -/
def pyFmt01f (q : ℚ) : String :=
  let n := roundHalfEven (q * 10)
  let a := n.natAbs
  let sgn := if n < 0 then "-" else ""
  sgn ++ toString (a / 10) ++ "." ++ toString (a % 10)

/-- `CHARIS.ramp` as its trace of observable effects. `t0`/`t1` are the two
`time.time()` readings of the non-error path. The source first publishes the
sub-tag (`subpath` on the main tag), then rejects the mutually exclusive
`nread > 0 and exptime > 0` combination via `task_error`, and otherwise
reports start, runs the external `oneCmd.py hx ramp`, and reports
completion. -/
def ramp (t0 t1 : ℚ) (tag exptype : String) (exptime : ℚ) (nreset nread : ℤ) :
    List Effect :=
  let subtag := tag ++ ".1"
  let e0 := Effect.setvalsE tag [("subpath", .str subtag)]
  if nread > 0 ∧ exptime > 0 then
    [e0, .setvalsE subtag
      [("task_error", .str "Either exptime OR nread can be set. Not both.")]]
  else
    let e1 := Effect.setvalsE subtag
      [("task_start", .num t0),
       ("cmd_str", .str ("Taking a " ++ exptype ++ " ramp(" ++ toString nreset ++
          ", " ++ toString nread ++ ")"))]
    let ra := if nread > 0 then
        ("nread=" ++ toString nread, ((nread + nreset : ℤ) : ℚ) * (3/2) + 20)
      else
        ("itime=" ++ pyFmt01f exptime, (nreset : ℚ) * (3/2) + exptime + 20)
    let e2 := Effect.execCmdE ("oneCmd.py hx --level=i --timelim=" ++ pyFmt01f ra.2 ++
      " ramp nreset=" ++ toString nreset ++ " " ++ ra.1)
    let e3 := Effect.setvalsE subtag [("cmd_str", .str "Moved! ")]
    let e4 := Effect.setvalsE subtag [("task_end", .num t1), ("cmd_str", .str "Done with ramp")]
    [e0, e1, e2, e3, e4]

/-- True for a `task_error` write under the given sub-tag. -/
def isTaskErrorWrite (subtag : String) : Effect → Bool
  | .setvalsE t fields => t == subtag && fields.all (fun p => p.1 == "task_error")
  | _ => false

/-! ## Lifecycle (start/stop)

State of the façade's background work, as far as the in-repository code
controls it: the two stored task handles (`self.status_task`,
`self.power_task`) and whether each background loop has been started and not
stopped through those handles. The `super()` delegations go to the external
g2cam `BASECAM` and are outside this model. -/

/-- Façade lifecycle state. -/
structure LifecycleState where
  status_task : Option Unit
  power_task : Option Unit
  statusRunning : Bool
  powerRunning : Bool
  headerRunning : Bool
deriving DecidableEq

/-- State after `initialize`: no handles, nothing running. -/
def initState : LifecycleState :=
  { status_task := none, power_task := none,
    statusRunning := false, powerRunning := false, headerRunning := false }

/-- `CHARIS.start`: start the periodic status `IntervalTask` and store its
handle; construct the `PowerMonTask` but do NOT start or store it (both
lines are commented out in the source); start the `HeaderTask` on port 6666
and discard its handle. -/
def start (s : LifecycleState) : LifecycleState :=
  { s with status_task := some (), statusRunning := true, headerRunning := true }

/-- `CHARIS.stop`: stop the status task through its stored handle if any and
clear the handle; likewise for the power task; the header task's handle was
never stored and nothing here touches it. -/
def stop (s : LifecycleState) : LifecycleState :=
  let s1 := if s.status_task.isSome then { s with statusRunning := false } else s
  let s2 := { s1 with status_task := none }
  let s3 := if s2.power_task.isSome then { s2 with powerRunning := false } else s2
  { s3 with power_task := none }

/-! ## Header query server -/

/-- `HeaderQueryHandler.handle`: strip the received request, invoke the
registered handler, and on ANY exception fall back to an empty
`pyfits.Header()`; the serialized header (`ser` models the external
`Header.tostring`) is then sent back before the connection closes. The
returned string is the full response written to the socket. -/
def handle (ser : Header → String) (localFunc : String → Except PyErr Header)
    (raw : String) : String :=
  let req := pyStrip raw
  let hdr : Header :=
    match localFunc req with
    | .error _ => []
    | .ok h => h
  ser hdr

/-- Outcome of one iteration of `HeaderTask.execute`'s serve loop. -/
inductive StepResult where
  | exitLoop
  | continueServing (sent : Option String)
deriving DecidableEq

/-- One iteration of `HeaderTask.execute`: leave the loop only when the quit
event is set; otherwise serve the pending connection, if any, through
`handle` (a timeout serves nothing), and continue — exceptions inside an
iteration are caught and logged, never ending the loop. -/
def executeStep (ser : Header → String) (localFunc : String → Except PyErr Header)
    (ev_quit : Bool) (conn : Option String) : StepResult :=
  if ev_quit then .exitLoop
  else .continueServing (conn.map (handle ser localFunc))

/-! ## Result projections used by claim statements -/

/-- A load result that is an untyped failure: an error that is NOT one of the
typed g2cam command errors. -/
def loadFailsUntyped : Except PyErr (List Entry) → Bool
  | .error e => !isCamCommandError e
  | .ok _ => false

/-- A header build that failed (any exception). -/
def buildFails : Except PyErr Header → Bool
  | .error _ => true
  | .ok _ => false

/-- A header build that failed with a missing status key (`KeyError`). -/
def buildFailsMissingKey : Except PyErr Header → Bool
  | .error e => isMissingKey e
  | .ok _ => false

/-- A `localCmd` run that returned a header. -/
def isHdrOk : Except PyErr LocalRes → Bool
  | .ok (.hdrRes _) => true
  | _ => false

/-- The value of field `k` in the header returned by a `localCmd` run. -/
def resultValue (k : String) : Except PyErr LocalRes → Option PyVal
  | .ok (.hdrRes h) => hvalue h k
  | _ => none

/-! ## Concrete fixtures used by witnesses and counterexamples -/

/-- External time library instance for concrete runs: formatting and MJD are
irrelevant to the claims, so constant functions serve. -/
def timeFix : TimeOps :=
  { fmtDate := fun _ => "2000-01-01", fmtTime := fun _ => "00:00:00.000",
    mjd := fun _ => 0 }

/-- Telescope status snapshot with the spec's round-trip RA/DEC strings. -/
def dTelFix : StatusDict := fun k =>
  if k = "FITS.SBR.RA" then some (.str "10:00:00")
  else if k = "FITS.SBR.DEC" then some (.str "-20:30:00") else none

/-- AO status snapshot with a parseable rotator angle. -/
def dAoFix : StatusDict := fun k =>
  if k = "AON.IMR.PAD" then some (.str "0") else none

/-- Telescope snapshot whose RA value does not parse as sexagesimal. -/
def dTelBad : StatusDict := fun k =>
  if k = "FITS.SBR.RA" then some (.str "bad")
  else if k = "FITS.SBR.DEC" then some (.str "0:0:0") else none

/-- An empty status dictionary. -/
def dNone : StatusDict := fun _ => none

/-- A table entry redefining the fixed key EXPTIME (alias `NA`). -/
def telOvr : List Entry :=
  [{ StatAlias := "NA", FitsKey := "EXPTIME", FitsType := "string",
     FitsDefault := .str "OVR", FitsComment := "redefined" }]

/-- An AO-table entry whose alias `X` will be absent from its dictionary. -/
def aoX : Entry :=
  { StatAlias := "X", FitsKey := "XKEY", FitsType := "string",
    FitsDefault := .str "d", FitsComment := "c" }

/-- One-entry AO table carrying `aoX`. -/
def aoMissX : List Entry := [aoX]

/-- A telescope-table entry whose alias `Y` will be absent from its
dictionary. -/
def telY : Entry :=
  { StatAlias := "Y", FitsKey := "YKEY", FitsType := "string",
    FitsDefault := .str "d", FitsComment := "c" }

/-- One-entry telescope table carrying `telY`. -/
def telMissY : List Entry := [telY]

/-- The short-form header produced by the concrete fixture run. -/
def shortFix : Header := fixedHeader timeFix (.str "9") 1 0

/-- The full-form header produced by the concrete fixture run with both
tables empty. -/
def fullFix : Header :=
  addComment (addComment (addComment
    (hset shortFix "OBJECT" (.str "t") "Target description") commentBar) commentAO) commentBar

/-- Serializer fixture for the query-server claims. -/
def serFix : Header → String := fun h => "SER" ++ toString h.length

/-- A handler that always raises, for the query-server witness. -/
def failingHandler : String → Except PyErr Header := fun _ => .error .valueError

/-- A two-command method table fixture for the dispatch witness. -/
def methodsFix : String → Option Operation := fun n =>
  if n = "putstatus" then some (fun _ _ => .ok (.str "ok")) else none

/-! ## Helper lemmas -/

lemma hlookup_hset_ne {h : Header} {kset k : String} (v : PyVal) (c : String)
    (hne : kset ≠ k) : hlookup (hset h kset v c) k = hlookup h k := by
  induction h with
  | nil => simp [hset, hlookup, hne]
  | cons card rest ih =>
    by_cases hc : card.1 = kset
    · simp [hset, hc, hlookup, hne]
    · simp only [hset, if_neg hc, hlookup]
      by_cases hck : card.1 = k
      · simp [hck]
      · simp [hck, ih]

lemma hlookup_hset_isSome {h : Header} {kset k : String} (v : PyVal) (c : String)
    (hs : (hlookup h k).isSome) : (hlookup (hset h kset v c) k).isSome := by
  induction h with
  | nil => simp [hlookup] at hs
  | cons card rest ih =>
    by_cases hc : card.1 = kset
    · simp only [hset, if_pos hc]
      by_cases hck : card.1 = k
      · simp [hlookup, hc ▸ hck]
      · simp only [hlookup, if_neg hck] at hs
        have : ¬ (kset = k) := fun hh => hck (hc.trans hh)
        simp [hlookup, this, hs]
    · simp only [hset, if_neg hc]
      by_cases hck : card.1 = k
      · simp [hlookup, hck]
      · simp only [hlookup, if_neg hck] at hs ⊢
        exact ih hs

lemma hlookup_append_some {h : Header} {k : String} {p : PyVal × String}
    (l : Header) (hl : hlookup h k = some p) : hlookup (h ++ l) k = some p := by
  induction h with
  | nil => simp [hlookup] at hl
  | cons card rest ih =>
    by_cases hck : card.1 = k
    · simp only [hlookup, if_pos hck] at hl
      simp [hlookup, hck, hl]
    · simp only [hlookup, if_neg hck] at hl
      simp only [List.cons_append, hlookup, if_neg hck]
      exact ih hl

lemma hlookup_append_isSome {h : Header} {k : String}
    (l : Header) (hs : (hlookup h k).isSome) : (hlookup (h ++ l) k).isSome := by
  obtain ⟨p, hp⟩ := Option.isSome_iff_exists.mp hs
  rw [hlookup_append_some l hp]
  rfl

lemma hlookup_addComment_some {h : Header} {k : String} {p : PyVal × String}
    (s : String) (hl : hlookup h k = some p) : hlookup (addComment h s) k = some p :=
  hlookup_append_some _ hl

lemma hlookup_addComment_isSome {h : Header} {k : String}
    (s : String) (hs : (hlookup h k).isSome) : (hlookup (addComment h s) k).isSome :=
  hlookup_append_isSome _ hs

lemma emitTable_preserve {tbl : List Entry} {d : StatusDict} {h h2 : Header}
    {k : String} {p : PyVal × String}
    (hE : emitTable tbl d h = .ok h2) (hk : ∀ e ∈ tbl, e.FitsKey ≠ k)
    (hl : hlookup h k = some p) : hlookup h2 k = some p := by
  induction tbl generalizing h with
  | nil =>
    simp only [emitTable, Except.ok.injEq] at hE
    exact hE ▸ hl
  | cons e rest ih =>
    have hke : e.FitsKey ≠ k := hk e (List.mem_cons_self _ _)
    have hkr : ∀ e2 ∈ rest, e2.FitsKey ≠ k :=
      fun e2 he2 => hk e2 (List.mem_cons_of_mem _ he2)
    simp only [emitTable] at hE
    by_cases hna : e.StatAlias = "NA"
    · rw [if_pos hna] at hE
      exact ih hE hkr ((hlookup_hset_ne _ _ hke).trans hl)
    · rw [if_neg hna] at hE
      cases hd : d e.StatAlias with
      | none => rw [hd] at hE; cases hE
      | some v =>
        rw [hd] at hE
        exact ih hE hkr ((hlookup_hset_ne _ _ hke).trans hl)

lemma emitTable_isSome {tbl : List Entry} {d : StatusDict} {h h2 : Header} {k : String}
    (hE : emitTable tbl d h = .ok h2) (hs : (hlookup h k).isSome) :
    (hlookup h2 k).isSome := by
  induction tbl generalizing h with
  | nil =>
    simp only [emitTable, Except.ok.injEq] at hE
    exact hE ▸ hs
  | cons e rest ih =>
    simp only [emitTable] at hE
    by_cases hna : e.StatAlias = "NA"
    · rw [if_pos hna] at hE
      exact ih hE (hlookup_hset_isSome _ _ hs)
    · rw [if_neg hna] at hE
      cases hd : d e.StatAlias with
      | none => rw [hd] at hE; cases hE
      | some v =>
        rw [hd] at hE
        exact ih hE (hlookup_hset_isSome _ _ hs)

lemma emitTable_ok_of_present {tbl : List Entry} {d : StatusDict} (h : Header)
    (hp : ∀ e ∈ tbl, e.StatAlias ≠ "NA" → (d e.StatAlias).isSome) :
    ∃ h2, emitTable tbl d h = .ok h2 := by
  induction tbl generalizing h with
  | nil => exact ⟨h, rfl⟩
  | cons e rest ih =>
    have hpr : ∀ e2 ∈ rest, e2.StatAlias ≠ "NA" → (d e2.StatAlias).isSome :=
      fun e2 he2 => hp e2 (List.mem_cons_of_mem _ he2)
    simp only [emitTable]
    by_cases hna : e.StatAlias = "NA"
    · rw [if_pos hna]
      exact ih _ hpr
    · rw [if_neg hna]
      obtain ⟨v, hv⟩ := Option.isSome_iff_exists.mp (hp e (List.mem_cons_self _ _) hna)
      rw [hv]
      exact ih _ hpr

lemma emitTable_present_of_ok {tbl : List Entry} {d : StatusDict} {h h2 : Header}
    (hE : emitTable tbl d h = .ok h2) :
    ∀ e ∈ tbl, e.StatAlias ≠ "NA" → (d e.StatAlias).isSome := by
  induction tbl generalizing h with
  | nil => intro e he; cases he
  | cons e rest ih =>
    intro e2 he2 hna2
    simp only [emitTable] at hE
    rcases List.mem_cons.mp he2 with rfl | hmem
    · rw [if_neg hna2] at hE
      cases hd : d e2.StatAlias with
      | none => rw [hd] at hE; cases hE
      | some v => rfl
    · by_cases hna : e.StatAlias = "NA"
      · rw [if_pos hna] at hE
        exact ih hE e2 hmem hna2
      · rw [if_neg hna] at hE
        cases hd : d e.StatAlias with
        | none => rw [hd] at hE; cases hE
        | some v => rw [hd] at hE; exact ih hE e2 hmem hna2

lemma emitTable_missing {tbl : List Entry} {d : StatusDict} (h : Header)
    (hm : ∃ e ∈ tbl, e.StatAlias ≠ "NA" ∧ d e.StatAlias = none) :
    ∃ k, emitTable tbl d h = .error (.missingKey k) := by
  induction tbl generalizing h with
  | nil => obtain ⟨e, he, _⟩ := hm; cases he
  | cons e rest ih =>
    obtain ⟨e2, he2, hna2, habs2⟩ := hm
    simp only [emitTable]
    rcases List.mem_cons.mp he2 with rfl | hmem
    · rw [if_neg hna2, habs2]
      exact ⟨e2.StatAlias, rfl⟩
    · by_cases hna : e.StatAlias = "NA"
      · rw [if_pos hna]
        exact ih _ ⟨e2, hmem, hna2, habs2⟩
      · rw [if_neg hna]
        cases hd : d e.StatAlias with
        | none => exact ⟨e.StatAlias, rfl⟩
        | some v => exact ih _ ⟨e2, hmem, hna2, habs2⟩

lemma fullPart_parts {tel ao : List Entry} {dT dA : StatusDict} {tgt : String}
    {h0 hF : Header} (hp : fullPart tel ao dT dA tgt h0 = .ok hF) :
    ∃ h2, emitTable tel dT (hset h0 "OBJECT" (PyVal.str tgt) "Target description") = .ok h2 ∧
      pointingChecks dT dA = .ok () ∧
      emitTable ao dA
        (addComment (addComment (addComment h2 commentBar) commentAO) commentBar) = .ok hF := by
  unfold fullPart at hp
  cases hE1 : emitTable tel dT (hset h0 "OBJECT" (PyVal.str tgt) "Target description") with
  | error e => rw [hE1] at hp; cases hp
  | ok h2 =>
    rw [hE1] at hp
    cases hPC : pointingChecks dT dA with
    | error e => rw [hPC] at hp; cases hp
    | ok u => cases u; rw [hPC] at hp; exact ⟨h2, rfl, rfl, hp⟩

lemma fullPart_preserve {tel ao : List Entry} {dT dA : StatusDict} {tgt : String}
    {h0 hF : Header} {k : String} {p : PyVal × String}
    (hp : fullPart tel ao dT dA tgt h0 = .ok hF)
    (hkO : k ≠ "OBJECT") (hktel : ∀ e ∈ tel, e.FitsKey ≠ k)
    (hkao : ∀ e ∈ ao, e.FitsKey ≠ k) (hl : hlookup h0 k = some p) :
    hlookup hF k = some p := by
  obtain ⟨h2, hE1, _, hE2⟩ := fullPart_parts hp
  have l1 : hlookup (hset h0 "OBJECT" (PyVal.str tgt) "Target description") k = some p :=
    (hlookup_hset_ne _ _ (Ne.symm hkO)).trans hl
  have l2 := emitTable_preserve hE1 hktel l1
  have l3 := hlookup_addComment_some commentBar
    (hlookup_addComment_some commentAO (hlookup_addComment_some commentBar l2))
  exact emitTable_preserve hE2 hkao l3

lemma fullPart_isSome {tel ao : List Entry} {dT dA : StatusDict} {tgt : String}
    {h0 hF : Header} {k : String}
    (hp : fullPart tel ao dT dA tgt h0 = .ok hF) (hs : (hlookup h0 k).isSome) :
    (hlookup hF k).isSome := by
  obtain ⟨h2, hE1, _, hE2⟩ := fullPart_parts hp
  have l1 := @hlookup_hset_isSome h0 "OBJECT" k (PyVal.str tgt) "Target description" hs
  have l2 := emitTable_isSome hE1 l1
  have l3 := hlookup_addComment_isSome commentBar
    (hlookup_addComment_isSome commentAO (hlookup_addComment_isSome commentBar l2))
  exact emitTable_isSome hE2 l3

lemma fetch_header_false (T : TimeOps) (tel ao : List Entry) (dT dA : StatusDict)
    (path : String) (fid mode : PyVal) (it : ℚ) (tgt : String) (u : ℚ) :
    fetch_header T tel ao dT dA path fid mode it tgt u (.bool false) =
      .ok (fixedHeader T fid it u) := rfl

lemma fetch_header_notfalse (T : TimeOps) (tel ao : List Entry) (dT dA : StatusDict)
    (path : String) (fid mode : PyVal) (it : ℚ) (tgt : String) (u : ℚ)
    (v : PyVal) (hv : v ≠ PyVal.bool false) :
    fetch_header T tel ao dT dA path fid mode it tgt u v =
      fullPart tel ao dT dA tgt (fixedHeader T fid it u) := by
  simp only [fetch_header]
  rw [if_neg hv]

lemma fixedHeader_eq (T : TimeOps) (f : PyVal) (i u : ℚ) :
    fixedHeader T f i u =
      [("DATE-OBS", .str (T.fmtDate u), "Observation start date (yyyy-mm-dd)"),
       ("UT", .str (T.fmtTime u), "HH:MM:SS.SS typical UTC at exposure"),
       ("UT-STR", .str (T.fmtTime u), "HH:MM:SS.SS UTC at exposure start"),
       ("UT-END", .str (T.fmtTime (u + i)), "HH:MM:SS.SS UTC at exposure end"),
       ("HST", .str (T.fmtTime (u - 36000)), "HH:MM:SS.SS typical HST at exposure"),
       ("HST-STR", .str (T.fmtTime (u - 36000)), "HH:MM:SS.SS HST at exposure start"),
       ("HST-END", .str (T.fmtTime (u - 36000 + i)), "HH:MM:SS.SS HST at exposure end"),
       ("MJD", .num (T.mjd u), "Modified Julian Day at typical time"),
       ("MJD-STR", .num (T.mjd u), "Modified Julian Day at exposure start"),
       ("MJD-END", .num (T.mjd (u + i)), "Modified Julian Day at exposure end"),
       ("FRAMEID", f, "Image sequential number"),
       ("EXPTIME", .num i, "Total integration time of the frame (sec)")] := rfl

lemma fixedHeader_FRAMEID (T : TimeOps) (f : PyVal) (i u : ℚ) :
    hlookup (fixedHeader T f i u) "FRAMEID" = some (f, "Image sequential number") := rfl

lemma fixedHeader_EXPTIME (T : TimeOps) (f : PyVal) (i u : ℚ) :
    hlookup (fixedHeader T f i u) "EXPTIME" =
      some (.num i, "Total integration time of the frame (sec)") := rfl

lemma fixedHeader_OBJECT (T : TimeOps) (f : PyVal) (i u : ℚ) :
    hlookup (fixedHeader T f i u) "OBJECT" = none := rfl

/-- The twelve fixed keys of the short form. -/
def shortKeys : List String :=
  ["DATE-OBS", "UT", "UT-STR", "UT-END", "HST", "HST-STR", "HST-END",
   "MJD", "MJD-STR", "MJD-END", "FRAMEID", "EXPTIME"]

lemma hlookup_mem_keys {h : Header} {k : String} {p : PyVal × String}
    (hl : hlookup h k = some p) : k ∈ h.map (fun c => c.1) := by
  induction h with
  | nil => cases hl
  | cons card rest ih =>
    by_cases hck : card.1 = k
    · simp [hck]
    · simp only [hlookup, if_neg hck] at hl
      simp [ih hl]

lemma fixedHeader_keys {T : TimeOps} {f : PyVal} {i u : ℚ} {k : String}
    {p : PyVal × String} (h : hlookup (fixedHeader T f i u) k = some p) :
    k ∈ shortKeys := by
  have hm := hlookup_mem_keys h
  rw [fixedHeader_eq] at hm
  simpa [shortKeys] using hm

lemma shortKeys_ne_OBJECT {k : String} (hk : k ∈ shortKeys) : k ≠ "OBJECT" := by
  fin_cases hk <;> decide

lemma pyFloat_10 : pyFloatStr "10" = some 10 := by
  have h : pyFloatStr "10" = some (1 * ((digitsVal ['1', '0'] : ℚ) +
      (digitsVal ([] : List Char) : ℚ) / (10 : ℚ) ^ (([] : List Char)).length)) := rfl
  have d1 : digitsVal ['1', '0'] = 10 := by decide
  have d0 : digitsVal ([] : List Char) = 0 := by decide
  rw [h, d1, d0]
  norm_num

lemma pyFloat_00 : pyFloatStr "00" = some 0 := by
  have h : pyFloatStr "00" = some (1 * ((digitsVal ['0', '0'] : ℚ) +
      (digitsVal ([] : List Char) : ℚ) / (10 : ℚ) ^ (([] : List Char)).length)) := rfl
  have d1 : digitsVal ['0', '0'] = 0 := by decide
  have d0 : digitsVal ([] : List Char) = 0 := by decide
  rw [h, d1, d0]
  norm_num

lemma pyFloat_30 : pyFloatStr "30" = some 30 := by
  have h : pyFloatStr "30" = some (1 * ((digitsVal ['3', '0'] : ℚ) +
      (digitsVal ([] : List Char) : ℚ) / (10 : ℚ) ^ (([] : List Char)).length)) := rfl
  have d1 : digitsVal ['3', '0'] = 30 := by decide
  have d0 : digitsVal ([] : List Char) = 0 := by decide
  rw [h, d1, d0]
  norm_num

lemma pyFloat_m20 : pyFloatStr "-20" = some (-20) := by
  have h : pyFloatStr "-20" = some ((-1) * ((digitsVal ['2', '0'] : ℚ) +
      (digitsVal ([] : List Char) : ℚ) / (10 : ℚ) ^ (([] : List Char)).length)) := rfl
  have d1 : digitsVal ['2', '0'] = 20 := by decide
  have d0 : digitsVal ([] : List Char) = 0 := by decide
  rw [h, d1, d0]
  norm_num

lemma pyFloat_45 : pyFloatStr "4.5" = some (9/2) := by
  have h : pyFloatStr "4.5" = some (1 * ((digitsVal ['4'] : ℚ) +
      (digitsVal ['5'] : ℚ) / (10 : ℚ) ^ ((['5'] : List Char)).length)) := rfl
  have d1 : digitsVal ['4'] = 4 := by decide
  have d2 : digitsVal ['5'] = 5 := by decide
  rw [h, d1, d2]
  norm_num

lemma ra_deg_eval {raS hh mm ss : String} {H M S : ℚ}
    (hsplit : pySplitSep raS ':' = [hh, mm, ss])
    (hH : pyFloatStr hh = some H) (hM : pyFloatStr mm = some M)
    (hS2 : pyFloatStr ss = some S) :
    ra_deg_of raS = .ok (15 * (H + M / 60 + S / 3600)) := by
  simp only [ra_deg_of, hsplit, pyIdx, List.get?, pyFloatE, hH, hM, hS2,
    bind, Except.bind, pure, Except.pure]

lemma dec_deg_eval {decS dd mm ss : String} {D M S : ℚ}
    (hsplit : pySplitSep decS ':' = [dd, mm, ss])
    (hD : pyFloatStr dd = some D) (hM : pyFloatStr mm = some M)
    (hS2 : pyFloatStr ss = some S) :
    dec_deg_of decS = .ok (if dd.toList.contains '-' then D - M / 60 - S / 3600
      else D + M / 60 + S / 3600) := by
  simp only [dec_deg_of, hsplit, pyIdx, List.get?, pyFloatE, hD, hM, hS2,
    bind, Except.bind, pure, Except.pure]
  cases hc : dd.toList.contains '-' <;> simp [hc]

lemma ra_deg_10 : ra_deg_of "10:00:00" = .ok 150 := by
  rw [ra_deg_eval (by decide) pyFloat_10 pyFloat_00 pyFloat_00]
  norm_num

lemma dec_deg_m2030 : dec_deg_of "-20:30:00" = .ok (-41/2) := by
  rw [dec_deg_eval (by decide) pyFloat_m20 pyFloat_30 pyFloat_00]
  norm_num

lemma coerceDefault_not_cam {prev : Option PyVal} {t : String} {d3 : Option String}
    {e : PyErr} (h : coerceDefault prev t d3 = .error e) : isCamCommandError e = false := by
  unfold coerceDefault at h
  split_ifs at h
  · split at h
    · cases h; rfl
    · cases h
  · split at h
    · cases h; rfl
    · split at h
      · cases h; rfl
      · cases h
  · split at h
    · cases h; rfl
    · split at h
      · cases h; rfl
      · cases h
  · split at h
    · cases h; rfl
    · cases h

lemma parseFields_not_cam {prev : Option PyVal} {param : List String} {e : PyErr}
    (h : parseFields prev param = .error e) : isCamCommandError e = false := by
  unfold parseFields at h
  split at h
  · split at h
    · next heq => cases h; exact coerceDefault_not_cam heq
    · cases h
  · cases h; rfl

lemma parseLine_not_cam {prev : Option PyVal} {line : String} {e : PyErr}
    (h : parseLine prev line = .error e) : isCamCommandError e = false :=
  parseFields_not_cam h

lemma readLines_not_cam {lines : List String} {prev : Option PyVal} {e : PyErr}
    (h : readLines prev lines = .error e) : isCamCommandError e = false := by
  induction lines generalizing prev with
  | nil => cases h
  | cons line rest ih =>
    simp only [readLines] at h
    by_cases hs : startsHash line
    · rw [if_pos hs] at h
      exact ih h
    · rw [if_neg hs] at h
      split at h
      · next e2 heq => cases h; exact parseLine_not_cam heq
      · next pr heq =>
        split at h
        · next e2 hr => cases h; exact ih hr
        · next es hr => cases h

lemma parseFields_bad_coercion {prev : Option PyVal} {param : List String} {ty dflt : String}
    (h2 : param.get? 2 = some ty) (h3 : param.get? 3 = some dflt)
    (hbad : (ty = "float" ∧ pyFloatStr dflt = none) ∨ (ty = "int" ∧ pyLongStr dflt = none)) :
    parseFields prev param = .error .valueError := by
  have hlen : 3 < param.length := (List.get?_eq_some.mp h3).1
  have hg0 : ∃ a, param.get? 0 = some a := by
    cases hg : param.get? 0 with
    | none => exact absurd (List.get?_eq_none.mp hg) (by omega)
    | some a => exact ⟨a, rfl⟩
  have hg1 : ∃ a, param.get? 1 = some a := by
    cases hg : param.get? 1 with
    | none => exact absurd (List.get?_eq_none.mp hg) (by omega)
    | some a => exact ⟨a, rfl⟩
  obtain ⟨a0, hg0⟩ := hg0
  obtain ⟨a1, hg1⟩ := hg1
  have hco : coerceDefault prev ty (param.get? 3) = .error .valueError := by
    rcases hbad with ⟨rfl, hf⟩ | ⟨rfl, hf⟩
    · simp only [coerceDefault, if_neg (by decide : ¬ ("float" = "string")), if_pos rfl,
        h3, hf, if_true]
    · simp only [coerceDefault, if_neg (by decide : ¬ ("int" = "string")),
        if_neg (by decide : ¬ ("int" = "float")), if_pos rfl, h3, hf, if_true]
  simp only [parseFields, hg0, hg1, h2, hco]

lemma parseLine_bad_coercion {prev : Option PyVal} {line ty dflt : String}
    (h2 : (pySplitRuns wsBang (String.mk line.toList.dropLast)).get? 2 = some ty)
    (h3 : (pySplitRuns wsBang (String.mk line.toList.dropLast)).get? 3 = some dflt)
    (hbad : (ty = "float" ∧ pyFloatStr dflt = none) ∨ (ty = "int" ∧ pyLongStr dflt = none)) :
    parseLine prev line = .error .valueError :=
  parseFields_bad_coercion h2 h3 hbad

lemma readLines_bad_line (pre post : List String) {line ty dflt : String}
    (hns : startsHash line = false)
    (h2 : (pySplitRuns wsBang (String.mk line.toList.dropLast)).get? 2 = some ty)
    (h3 : (pySplitRuns wsBang (String.mk line.toList.dropLast)).get? 3 = some dflt)
    (hbad : (ty = "float" ∧ pyFloatStr dflt = none) ∨ (ty = "int" ∧ pyLongStr dflt = none)) :
    ∀ prev, ∃ e, readLines prev (pre ++ line :: post) = .error e := by
  induction pre with
  | nil =>
    intro prev
    refine ⟨.valueError, ?_⟩
    simp only [List.nil_append, readLines]
    rw [if_neg (by simp [hns]), parseLine_bad_coercion h2 h3 hbad]
  | cons l pre ih =>
    intro prev
    simp only [List.cons_append, readLines]
    by_cases hs : startsHash l
    · rw [if_pos hs]
      exact ih prev
    · rw [if_neg hs]
      cases hp : parseLine prev l with
      | error e2 => exact ⟨e2, rfl⟩
      | ok pr =>
        obtain ⟨ent, prev2⟩ := pr
        obtain ⟨e, he⟩ := ih prev2
        refine ⟨e, ?_⟩
        simp only [List.append_eq, he]

lemma lookupParam_dictUpdate (d : List (String × PyVal)) (k : String) (v : PyVal) :
    lookupParam (dictUpdate d k v) k = some v := by
  induction d with
  | nil => simp [dictUpdate, lookupParam]
  | cons p rest ih =>
    by_cases hp : p.1 = k
    · simp [dictUpdate, hp, lookupParam]
    · simp only [dictUpdate, if_neg hp, lookupParam]
      exact ih

lemma pointingChecks_ok {dT dA : StatusDict} {padv : PyVal} {padq raq decq : ℚ}
    {raS decS : String}
    (hPad : dA "AON.IMR.PAD" = some padv) (hPadF : pyFloatV padv = .ok padq)
    (hRA : dT "FITS.SBR.RA" = some (.str raS)) (hra : ra_deg_of raS = .ok raq)
    (hDec : dT "FITS.SBR.DEC" = some (.str decS)) (hdec : dec_deg_of decS = .ok decq) :
    pointingChecks dT dA = .ok () := by
  simp only [pointingChecks, getKey, hPad, hRA, hDec, hPadF, asStr, hra, hdec,
    bind, Except.bind, pure, Except.pure]

/-! ## Claim theorems -/

/-- C2 counterexample: a definition line of type `int` whose default token
`abc` does not parse makes `read_header_list` fail with the interpreter's
`ValueError`, which is NOT the personality's typed `CHARISError`
(`ConfigError`), contradicting the claim as stated. -/
theorem C2_coercion_counterexample :
    read_header_list (some ["a KEY int abc\n"]) = .error PyErr.valueError ∧
    isCamCommandError PyErr.valueError = false :=
  ⟨by decide, rfl⟩

/-- C2 (amended): for every definition-table source containing a line whose
type field is `float` or `int` and whose default token does not parse as
that type, `read_header_list` fails and produces no table — but with an
untyped interpreter exception (the `ValueError` of the failed coercion, or
an earlier line's failure), not with the typed `CHARISError`, which the
loader raises only when the file cannot be opened. -/
theorem C2_coercion_failure (pre post : List String) (line ty dflt : String)
    (hns : startsHash line = false)
    (h2 : (pySplitRuns wsBang (String.mk line.toList.dropLast)).get? 2 = some ty)
    (h3 : (pySplitRuns wsBang (String.mk line.toList.dropLast)).get? 3 = some dflt)
    (hbad : (ty = "float" ∧ pyFloatStr dflt = none) ∨ (ty = "int" ∧ pyLongStr dflt = none)) :
    loadFailsUntyped (read_header_list (some (pre ++ line :: post))) = true := by
  obtain ⟨e, he⟩ := readLines_bad_line pre post hns h2 h3 hbad none
  have hr : read_header_list (some (pre ++ line :: post)) = .error e := he
  rw [hr]
  simp [loadFailsUntyped, readLines_not_cam he]

/-- C2 witness: the amended theorem applied to a concrete three-line source
with a malformed float default. -/
theorem C2_coercion_witness :
    loadFailsUntyped (read_header_list
      (some ["# comment line\n", "a K float xyz\n", "b K2 string y\n"])) = true :=
  C2_coercion_failure ["# comment line\n"] ["b K2 string y\n"] "a K float xyz\n" "float" "xyz"
    (by decide) (by decide) (by decide) (Or.inl ⟨rfl, by decide⟩)

/-- C3 counterexample: after `start()`, the power-monitor job is NOT running
(its startup lines are commented out in the source), and after `stop()` the
header QueryServer loop is still running (its handle was discarded by
`start()` and `stop()` never touches it) — contradicting the claim that
`start()` spins up all three and `stop()` cancels all of them. -/
theorem C3_lifecycle_counterexample :
    (start initState).powerRunning = false ∧
    (stop (start initState)).headerRunning = true := by decide

/-- C3 (amended): `start()` starts the periodic status-export job and the
header QueryServer task but not the power-monitor task; `stop()` stops the
status-export job through its stored handle, leaves the header task
untouched, and is idempotent (a second `stop()` changes nothing). -/
theorem C3_lifecycle (s : LifecycleState) :
    (start s).statusRunning = true ∧ (start s).headerRunning = true ∧
    (start s).powerRunning = s.powerRunning ∧
    (stop (start s)).statusRunning = false ∧
    (stop (start s)).headerRunning = true ∧
    stop (stop s) = stop s := by
  obtain ⟨st, pt, a, b, c⟩ := s
  refine ⟨rfl, rfl, rfl, ?_, ?_, ?_⟩ <;> cases st <;> cases pt <;> rfl

/-- C4: for every request whose registered handler raises, the QueryServer's
`handle` serializes and sends an empty/default header as the response (so
the connection is never closed without a response), and the serve loop of
`HeaderTask.execute` continues rather than exiting. -/
theorem C4_handler_failure (ser : Header → String) (lf : String → Except PyErr Header)
    (raw : String) (e : PyErr) (hf : lf (pyStrip raw) = .error e) :
    handle ser lf raw = ser [] ∧
    executeStep ser lf false (some raw) = .continueServing (some (ser [])) ∧
    executeStep ser lf false (some raw) ≠ .exitLoop := by
  have h1 : handle ser lf raw = ser [] := by
    simp only [handle, hf]
  refine ⟨h1, ?_, ?_⟩
  · simp [executeStep, Option.map, h1]
  · simp [executeStep]

/-- C4 witness: the theorem applied to a handler that always raises. -/
theorem C4_handler_failure_witness :
    handle serFix failingHandler " hdr 1 1 1 " = serFix [] ∧
    executeStep serFix failingHandler false (some " hdr 1 1 1 ") =
      .continueServing (some (serFix [])) ∧
    executeStep serFix failingHandler false (some " hdr 1 1 1 ") ≠ .exitLoop :=
  C4_handler_failure serFix failingHandler " hdr 1 1 1 " .valueError rfl

/-- C7: for every command name that does not resolve to an operation on the
façade, `dispatchCommand` fails with the typed `CamCommandError` (the
spec's `UnknownCommandError`) carrying the source's message; for every name
that does resolve, the operation is invoked with the positional arguments
and with `tag` merged into the keyword parameters, and its result is
returned. -/
theorem C7_dispatch (methods : String → Option Operation) (tag : PyVal)
    (cmdName : String) (args : List PyVal) (kwdargs : List (String × PyVal)) :
    (methods cmdName = none →
      dispatchCommand methods tag cmdName args kwdargs =
        .error (.camCommandError ("ERROR: No such method in subsystem: " ++ cmdName))) ∧
    (∀ m, methods cmdName = some m →
      dispatchCommand methods tag cmdName args kwdargs =
        m args (dictUpdate kwdargs "tag" tag) ∧
      lookupParam (dictUpdate kwdargs "tag" tag) "tag" = some tag) := by
  constructor
  · intro hm
    simp only [dispatchCommand, hm]
  · intro m hm
    exact ⟨by simp only [dispatchCommand, hm], lookupParam_dictUpdate kwdargs "tag" tag⟩

/-- C7 witness: the theorem applied to a concrete method table, for both an
unknown and a known command name. -/
theorem C7_dispatch_witness :
    dispatchCommand methodsFix (.str "t0") "no_such_cmd" [] [] =
      .error (.camCommandError "ERROR: No such method in subsystem: no_such_cmd") ∧
    dispatchCommand methodsFix (.str "t0") "putstatus" [] [] = .ok (.str "ok") ∧
    lookupParam (dictUpdate [] "tag" (.str "t0")) "tag" = some (.str "t0") :=
  ⟨(C7_dispatch methodsFix (.str "t0") "no_such_cmd" [] []).1 rfl,
   ((C7_dispatch methodsFix (.str "t0") "putstatus" [] []).2 _ rfl).1,
   ((C7_dispatch methodsFix (.str "t0") "putstatus" [] []).2 _ rfl).2⟩

/-- C8 counterexample: a `ramp` call with positive `nread` and positive
`exptime` produces a trace whose first effect is the `subpath` write on the
main tag — a state change that is not the `task_error` write — refuting
`without any other side effects: ... no other state changes`. -/
theorem C8_ramp_counterexample :
    ramp 0 0 "t" "TEST" 1 1 2 =
      [Effect.setvalsE "t" [("subpath", PyVal.str "t.1")],
       Effect.setvalsE "t.1"
         [("task_error", PyVal.str "Either exptime OR nread can be set. Not both.")]] ∧
    ((ramp 0 0 "t" "TEST" 1 1 2).all (isTaskErrorWrite "t.1")) = false :=
  ⟨by decide, by decide⟩

/-- C8 (amended): for every `ramp` invocation with positive `nread` and
positive `exptime`, the command writes the sub-tag association (`subpath`
on the main tag), then writes `task_error` under the sub-tag, and returns:
no `task_start` is written, no external command is executed, and no other
write occurs. -/
theorem C8_ramp_exclusive (t0 t1 : ℚ) (tag exptype : String) (exptime : ℚ)
    (nreset nread : ℤ) (h1 : nread > 0) (h2 : exptime > 0) :
    ramp t0 t1 tag exptype exptime nreset nread =
      [Effect.setvalsE tag [("subpath", .str (tag ++ ".1"))],
       Effect.setvalsE (tag ++ ".1")
         [("task_error", .str "Either exptime OR nread can be set. Not both.")]] := by
  simp only [ramp]
  rw [if_pos ⟨h1, h2⟩]

/-- C8 witness: the amended theorem applied at `nread = 2`, `exptime = 1`. -/
theorem C8_ramp_exclusive_witness :
    ramp 0 0 "t" "TEST" 1 1 2 =
      [Effect.setvalsE "t" [("subpath", PyVal.str "t.1")],
       Effect.setvalsE "t.1"
         [("task_error", PyVal.str "Either exptime OR nread can be set. Not both.")]] :=
  C8_ramp_exclusive 0 0 "t" "TEST" 1 1 2 (by decide) (by decide)

/-- C10: the short-form cutoff in `fetch_header` tests `fullHeader` for
identity with the boolean `False`: for every value other than the boolean
`False` — including the string `"False"` as delivered by the network
protocol through `localCmd` — the result is exactly the full-header result;
only the boolean `False` yields the short form, which lacks the full-form
field `OBJECT`. -/
theorem C10_fullheader_check (T : TimeOps) (tel ao : List Entry) (dT dA : StatusDict)
    (path : String) (fid mode : PyVal) (it : ℚ) (tgt : String) (u : ℚ)
    (v : PyVal) (hv : v ≠ PyVal.bool false) :
    fetch_header T tel ao dT dA path fid mode it tgt u v =
      fetch_header T tel ao dT dA path fid mode it tgt u (.bool true) ∧
    fetch_header T tel ao dT dA path fid mode it tgt u (.bool false) =
      .ok (fixedHeader T fid it u) ∧
    hvalue (fixedHeader T fid it u) "OBJECT" = none := by
  refine ⟨?_, fetch_header_false T tel ao dT dA path fid mode it tgt u, rfl⟩
  rw [fetch_header_notfalse T tel ao dT dA path fid mode it tgt u v hv,
    fetch_header_notfalse T tel ao dT dA path fid mode it tgt u (.bool true) (by decide)]

/-- C10 witness: the theorem applied at `fullHeader = "False"` (the string),
which produces the same result as the boolean `True`. -/
theorem C10_fullheader_witness :
    fetch_header timeFix [] [] dTelFix dAoFix "p" (.str "9") (.str "1") 1 "t" 0 (.str "False") =
      fetch_header timeFix [] [] dTelFix dAoFix "p" (.str "9") (.str "1") 1 "t" 0 (.bool true) ∧
    fetch_header timeFix [] [] dTelFix dAoFix "p" (.str "9") (.str "1") 1 "t" 0 (.bool false) =
      .ok (fixedHeader timeFix (.str "9") 1 0) ∧
    hvalue (fixedHeader timeFix (.str "9") 1 0) "OBJECT" = none :=
  C10_fullheader_check timeFix [] [] dTelFix dAoFix "p" (.str "9") (.str "1") 1 "t" 0
    (.str "False") (by decide)



lemma pyFloat_0 : pyFloatStr "0" = some 0 := by
  have h : pyFloatStr "0" = some (1 * ((digitsVal ['0'] : ℚ) +
      (digitsVal ([] : List Char) : ℚ) / (10 : ℚ) ^ (([] : List Char)).length)) := rfl
  have d1 : digitsVal ['0'] = 0 := by decide
  have d0 : digitsVal ([] : List Char) = 0 := by decide
  rw [h, d1, d0]
  norm_num

/-- C1: the full-header build's pointing conversions (the `ra_deg_of` and
`dec_deg_of` computations invoked by `fetch_header` on the snapshot's
`FITS.SBR.RA`/`FITS.SBR.DEC` strings) convert a colon-delimited H:M:S right
ascension to decimal degrees as `15*(H + M/60 + S/3600)`, and convert a
declination D:M:S by subtracting minutes and seconds whenever the degree
token contains a minus sign and adding them otherwise; in particular RA
`"10:00:00"` yields exactly `150.0` and DEC `"-20:30:00"` yields exactly
`-20.5`. -/
theorem C1_radec_conversion (raS decS hh mm ss dd dmm dss : String) (H M S D Dm Ds : ℚ)
    (hra : pySplitSep raS ':' = [hh, mm, ss])
    (hdec : pySplitSep decS ':' = [dd, dmm, dss])
    (hH : pyFloatStr hh = some H) (hM : pyFloatStr mm = some M)
    (hS2 : pyFloatStr ss = some S)
    (hD : pyFloatStr dd = some D) (hDm : pyFloatStr dmm = some Dm)
    (hDs : pyFloatStr dss = some Ds) :
    ra_deg_of raS = .ok (15 * (H + M / 60 + S / 3600)) ∧
    dec_deg_of decS = .ok (if dd.toList.contains '-' then D - Dm / 60 - Ds / 3600
      else D + Dm / 60 + Ds / 3600) ∧
    ra_deg_of "10:00:00" = .ok 150 ∧
    dec_deg_of "-20:30:00" = .ok (-41/2) :=
  ⟨ra_deg_eval hra hH hM hS2, dec_deg_eval hdec hD hDm hDs, ra_deg_10, dec_deg_m2030⟩

/-- C1 witness: the claim's theorem applied at the spec's round-trip inputs. -/
theorem C1_radec_witness :
    ra_deg_of "10:00:00" = .ok (15 * ((10 : ℚ) + 0 / 60 + 0 / 3600)) ∧
    dec_deg_of "-20:30:00" = .ok (-41/2) :=
  ⟨(C1_radec_conversion "10:00:00" "-20:30:00" "10" "00" "00" "-20" "30" "00"
      10 0 0 (-20) 30 0 (by decide) (by decide) pyFloat_10 pyFloat_00 pyFloat_00
      pyFloat_m20 pyFloat_30 pyFloat_00).1,
   (C1_radec_conversion "10:00:00" "-20:30:00" "10" "00" "00" "-20" "30" "00"
      10 0 0 (-20) 30 0 (by decide) (by decide) pyFloat_10 pyFloat_00 pyFloat_00
      pyFloat_m20 pyFloat_30 pyFloat_00).2.2.2⟩

/-- C5 counterexample: with a telescope table redefining the fixed key
`EXPTIME` (alias `NA`, default `"OVR"`), the short form carries
`EXPTIME = 1.0` but the full form carries `EXPTIME = "OVR"` for identical
inputs — the key is present in both, but not with the same value, refuting
the claim as stated. -/
theorem C5_shortform_counterexample :
    (fetch_header timeFix telOvr [] dTelFix dAoFix "p" (.str "9") (.str "1") 1 "t" 0
      (.bool false)).map (fun h => hvalue h "EXPTIME") = .ok (some (.num 1)) ∧
    (fetch_header timeFix telOvr [] dTelFix dAoFix "p" (.str "9") (.str "1") 1 "t" 0
      (.bool true)).map (fun h => hvalue h "EXPTIME") = .ok (some (.str "OVR")) :=
  ⟨by decide, by decide⟩

/-- C5 (amended): for identical inputs, every key of the short-form header
appears in the full-form header (the short form has no key absent from the
full form), and each short-form key keeps the same value and comment in the
full form provided no entry of either definition table redefines that key
(a table entry whose output key equals a fixed key overwrites it in the
full form). -/
theorem C5_shortform (T : TimeOps) (tel ao : List Entry) (dT dA : StatusDict)
    (path : String) (fid mode : PyVal) (it : ℚ) (tgt : String) (u : ℚ)
    (hS hF : Header)
    (hshort : fetch_header T tel ao dT dA path fid mode it tgt u (.bool false) = .ok hS)
    (hfull : fetch_header T tel ao dT dA path fid mode it tgt u (.bool true) = .ok hF) :
    (∀ k, (hlookup hS k).isSome → (hlookup hF k).isSome) ∧
    (∀ k p, hlookup hS k = some p → (∀ e ∈ tel, e.FitsKey ≠ k) →
      (∀ e ∈ ao, e.FitsKey ≠ k) → hlookup hF k = some p) := by
  have hSe : hS = fixedHeader T fid it u := by
    have h := (fetch_header_false T tel ao dT dA path fid mode it tgt u).symm.trans hshort
    exact (Except.ok.injEq _ _).mp h.symm
  have hfp : fullPart tel ao dT dA tgt (fixedHeader T fid it u) = .ok hF :=
    (fetch_header_notfalse T tel ao dT dA path fid mode it tgt u (.bool true)
      (by decide)).symm.trans hfull
  subst hSe
  constructor
  · intro k hk
    exact fullPart_isSome hfp hk
  · intro k p hk hktel hkao
    exact fullPart_preserve hfp (shortKeys_ne_OBJECT (fixedHeader_keys hk)) hktel hkao hk

/-- C5 witness: the amended theorem applied to the concrete fixture run with
empty tables. -/
theorem C5_shortform_witness :
    (hlookup fullFix "UT").isSome ∧
    hlookup fullFix "FRAMEID" = some (PyVal.str "9", "Image sequential number") := by
  have h := C5_shortform timeFix [] [] dTelFix dAoFix "p" (.str "9") (.str "1") 1 "t" 0
    shortFix fullFix (by decide) (by decide)
  exact ⟨h.1 "UT" (by decide),
    h.2 "FRAMEID" (PyVal.str "9", "Image sequential number") (by decide) (by simp) (by simp)⟩

/-- C6 counterexample: with the AO table's non-`NA` alias `X` absent from its
status dictionary but the telescope RA status value unparseable, the full
build fails with `ValueError` — not with a `MissingStatusKeyError` — even
though the claim's premise (a non-`NA` alias absent from its paired
dictionary) holds. -/
theorem C6_missing_alias_counterexample :
    fetch_header timeFix [] aoMissX dTelBad dAoFix "p" (.str "9") (.str "1") 1 "t" 0
      (.bool true) = .error PyErr.valueError ∧
    isMissingKey PyErr.valueError = false ∧
    aoX ∈ aoMissX ∧ aoX.StatAlias ≠ "NA" ∧ dAoFix aoX.StatAlias = none :=
  ⟨by decide, rfl, by simp [aoMissX], by decide, rfl⟩

/-- C6 (amended): whenever some non-`NA` alias of either definition table is
absent from its paired status dictionary, the full-header build fails and
returns no header (the field is never silently skipped); when the missing
alias is in the telescope table the failure is a `MissingStatusKeyError`
(`KeyError`), while a missing AO-table alias can be preempted by an earlier
error such as an unparseable pointing value. -/
theorem C6_missing_alias (T : TimeOps) (tel ao : List Entry) (dT dA : StatusDict)
    (path : String) (fid mode : PyVal) (it : ℚ) (tgt : String) (u : ℚ)
    (hmiss : (∃ e ∈ tel, e.StatAlias ≠ "NA" ∧ dT e.StatAlias = none) ∨
             (∃ e ∈ ao, e.StatAlias ≠ "NA" ∧ dA e.StatAlias = none)) :
    buildFails (fetch_header T tel ao dT dA path fid mode it tgt u (.bool true)) = true ∧
    ((∃ e ∈ tel, e.StatAlias ≠ "NA" ∧ dT e.StatAlias = none) →
      buildFailsMissingKey
        (fetch_header T tel ao dT dA path fid mode it tgt u (.bool true)) = true) := by
  have hfe := fetch_header_notfalse T tel ao dT dA path fid mode it tgt u (.bool true)
    (by decide)
  constructor
  · cases hres : fetch_header T tel ao dT dA path fid mode it tgt u (.bool true) with
    | error e => rfl
    | ok h =>
      exfalso
      rw [hres] at hfe
      obtain ⟨h2, hE1, hPC, hE2⟩ := fullPart_parts hfe.symm
      rcases hmiss with ⟨e, he, hna, habs⟩ | ⟨e, he, hna, habs⟩
      · have hpr := emitTable_present_of_ok hE1 e he hna
        rw [habs] at hpr
        simp at hpr
      · have hpr := emitTable_present_of_ok hE2 e he hna
        rw [habs] at hpr
        simp at hpr
  · rintro ⟨e, he, hna, habs⟩
    obtain ⟨k, hk⟩ := emitTable_missing
      (hset (fixedHeader T fid it u) "OBJECT" (PyVal.str tgt) "Target description")
      ⟨e, he, hna, habs⟩
    rw [hfe]
    unfold fullPart
    rw [hk]
    rfl

/-- C6 witness: the amended theorem applied to a one-entry telescope table
whose alias is absent from an empty dictionary. -/
theorem C6_missing_alias_witness :
    buildFails (fetch_header timeFix telMissY [] dNone dNone "p" (.str "9") (.str "1")
      1 "t" 0 (.bool true)) = true ∧
    buildFailsMissingKey (fetch_header timeFix telMissY [] dNone dNone "p" (.str "9")
      (.str "1") 1 "t" 0 (.bool true)) = true := by
  have h := C6_missing_alias timeFix telMissY [] dNone dNone "p" (.str "9") (.str "1")
    1 "t" 0 (Or.inl ⟨telY, by simp [telMissY], by decide, rfl⟩)
  exact ⟨h.1, h.2 ⟨telY, by simp [telMissY], by decide, rfl⟩⟩

/-- C9: for a QueryServer handler bound to the header builder, the request
line `"hdr 9999 1 4.5"`, evaluated against status snapshots containing all
required aliases and parseable pointing values, returns a header whose
`FRAMEID` field equals `9999` (the protocol's space-separated arguments
deliver it as the decimal string `"9999"`) and whose `EXPTIME` field equals
`4.5`. -/
theorem C9_end_to_end (T : TimeOps) (tel ao : List Entry) (dT dA : StatusDict) (now : ℚ)
    (padv : PyVal) (padq raq decq : ℚ) (raS decS : String)
    (hTel : ∀ e ∈ tel, e.StatAlias ≠ "NA" → (dT e.StatAlias).isSome)
    (hAo : ∀ e ∈ ao, e.StatAlias ≠ "NA" → (dA e.StatAlias).isSome)
    (hPad : dA "AON.IMR.PAD" = some padv) (hPadF : pyFloatV padv = .ok padq)
    (hRA : dT "FITS.SBR.RA" = some (.str raS)) (hra : ra_deg_of raS = .ok raq)
    (hDec : dT "FITS.SBR.DEC" = some (.str decS)) (hdec : dec_deg_of decS = .ok decq)
    (hKT : ∀ e ∈ tel, e.FitsKey ≠ "FRAMEID" ∧ e.FitsKey ≠ "EXPTIME")
    (hKA : ∀ e ∈ ao, e.FitsKey ≠ "FRAMEID" ∧ e.FitsKey ≠ "EXPTIME") :
    isHdrOk (localCmd T tel ao dT dA now "hdr 9999 1 4.5") = true ∧
    resultValue "FRAMEID" (localCmd T tel ao dT dA now "hdr 9999 1 4.5") =
      some (PyVal.str "9999") ∧
    resultValue "EXPTIME" (localCmd T tel ao dT dA now "hdr 9999 1 4.5") =
      some (PyVal.num (9/2)) := by
  obtain ⟨h2, hE1⟩ := emitTable_ok_of_present
    (hset (fixedHeader T (.str "9999") (9/2) now) "OBJECT" (PyVal.str "planetX")
      "Target description") hTel
  have hPC : pointingChecks dT dA = .ok () :=
    pointingChecks_ok hPad hPadF hRA hra hDec hdec
  obtain ⟨hF, hE2⟩ := emitTable_ok_of_present
    (addComment (addComment (addComment h2 commentBar) commentAO) commentBar) hAo
  have hfull : fullPart tel ao dT dA "planetX" (fixedHeader T (.str "9999") (9/2) now) =
      .ok hF := by
    simp only [fullPart, hE1, hPC, hE2]
  have hfetch : fetch_header T tel ao dT dA "here" (.str "9999") (.str "1") (9/2)
      "planetX" now (.bool true) = .ok hF := by
    rw [fetch_header_notfalse T tel ao dT dA "here" (.str "9999") (.str "1") (9/2)
      "planetX" now (.bool true) (by decide)]
    exact hfull
  have hv45 : pyFloatV (.str "4.5") = .ok (9/2) := by
    simp only [pyFloatV, pyFloat_45]
  have hrnh : return_new_header T tel ao dT dA now (.str "9999") (.str "1") (.str "4.5")
      (.bool true) = .ok hF := by
    unfold return_new_header
    rw [hv45]
    exact hfetch
  have hloc : localCmd T tel ao dT dA now "hdr 9999 1 4.5" = .ok (.hdrRes hF) := by
    show (return_new_header T tel ao dT dA now (.str "9999") (.str "1") (.str "4.5")
      (.bool true)).map LocalRes.hdrRes = .ok (.hdrRes hF)
    rw [hrnh]
    rfl
  have hFr : hlookup hF "FRAMEID" = some (PyVal.str "9999", "Image sequential number") := by
    apply emitTable_preserve hE2 (fun e he => (hKA e he).1)
    apply hlookup_addComment_some
    apply hlookup_addComment_some
    apply hlookup_addComment_some
    apply emitTable_preserve hE1 (fun e he => (hKT e he).1)
    rw [hlookup_hset_ne (PyVal.str "planetX") "Target description"
      (by decide : ("OBJECT" : String) ≠ "FRAMEID")]
    exact fixedHeader_FRAMEID T (.str "9999") (9/2) now
  have hEx : hlookup hF "EXPTIME" =
      some (PyVal.num (9/2), "Total integration time of the frame (sec)") := by
    apply emitTable_preserve hE2 (fun e he => (hKA e he).2)
    apply hlookup_addComment_some
    apply hlookup_addComment_some
    apply hlookup_addComment_some
    apply emitTable_preserve hE1 (fun e he => (hKT e he).2)
    rw [hlookup_hset_ne (PyVal.str "planetX") "Target description"
      (by decide : ("OBJECT" : String) ≠ "EXPTIME")]
    exact fixedHeader_EXPTIME T (.str "9999") (9/2) now
  rw [hloc]
  exact ⟨rfl, by simp [resultValue, hvalue, hFr], by simp [resultValue, hvalue, hEx]⟩

/-- C9 witness: the theorem applied to concrete snapshots with the required
aliases and empty tables. -/
theorem C9_end_to_end_witness :
    isHdrOk (localCmd timeFix [] [] dTelFix dAoFix 0 "hdr 9999 1 4.5") = true ∧
    resultValue "FRAMEID" (localCmd timeFix [] [] dTelFix dAoFix 0 "hdr 9999 1 4.5") =
      some (PyVal.str "9999") ∧
    resultValue "EXPTIME" (localCmd timeFix [] [] dTelFix dAoFix 0 "hdr 9999 1 4.5") =
      some (PyVal.num (9/2)) :=
  C9_end_to_end timeFix [] [] dTelFix dAoFix 0 (.str "0") 0 150 (-41/2)
    "10:00:00" "-20:30:00"
    (by simp) (by simp) rfl (by simp only [pyFloatV, pyFloat_0]) rfl ra_deg_10
    rfl dec_deg_m2030 (by simp) (by simp)

end CHARIS
